import Mathlib

/-!
Shallow embedding of the browser-canvas window backend
(`src/window/webgl_canvas.rs`) of the kiss3d repository.

The backend owns a `WebGLCanvasData` record (key/button state arrays, a
pending event queue, an outgoing event channel) behind an `Rc<RefCell<..>>`.
DOM event listeners registered in `open` translate raw browser events into
`WindowEvent` values, push them onto the pending queue and update the state
arrays; `poll_events` drains the queue into the outgoing channel.

Modelling conventions:
* The `Sender<WindowEvent>` channel is modelled as the list of events sent
  so far (`out_events`), appended in send order.
* The fixed-size state arrays indexed by `key as usize` / `button as usize`
  are modelled as total functions `Key → Action` / `MouseButton → Action`;
  the enum-to-index maps of the source are injective, so array reads and
  writes correspond exactly to function application and pointwise update.
* `f64` values only flow through two places: the device pixel ratio, which
  is stored at `open` and returned verbatim (modelled as a rational), and
  the expression `(x as f64 * hidpi_factor) as u32` used to compute the
  drawable size, modelled by an abstract function `scale : Nat → Nat`
  carried by the environment.
* The event enums (`WindowEvent`, `Action`, `Key`, `MouseButton`,
  `Modifiers`) live in the repository's `event` module, which is not part
  of the given sources; they are modelled from the spec's data-model
  section (tagged union of event variants, Press/Release actions, a
  four-flag modifier bitset, closed enums with terminal sentinels).
-/

namespace Kiss3d

/-- Modelled from the spec: `Action` is the enumeration {Press, Release}
(the `event` module declaring it is not among the given sources). -/
inductive Action
  | Press
  | Release
deriving DecidableEq, Repr

/-- Modelled from the spec: `MouseButton` is a fixed, closed enumeration
with terminal sentinel `Button8` (declared in the absent `event` module). -/
inductive MouseButton
  | Button1
  | Button2
  | Button3
  | Button4
  | Button5
  | Button6
  | Button7
  | Button8
deriving DecidableEq, Repr

/-- Modelled from the spec: `Key` is a fixed, closed enumeration with
terminal sentinel `Unknown` (declared in the absent `event` module). The
browser-canvas backend never constructs a `Key` value, so a representative
subset of variants suffices; only the sentinel is named by the source. -/
inductive Key
  | A
  | B
  | Space
  | Return
  | Unknown
deriving DecidableEq, Repr

/-- Modelled from the spec: `Modifiers` is a bitset over
{Shift, Control, Alt, Super}, one independent boolean flag per modifier. -/
structure Modifiers where
  shift : Bool
  control : Bool
  alt : Bool
  sup : Bool
deriving DecidableEq, Repr

/-- `Modifiers::empty()`: the bitset with every flag cleared. -/
def Modifiers.empty : Modifiers :=
  { shift := false, control := false, alt := false, sup := false }

/-- Modelled from the spec: the unified `WindowEvent` tagged union (declared
in the absent `event` module). The variants are the ones of the spec's data
model together with `Size`, which the source pushes alongside
`FramebufferSize` on resize. Coordinates are DOM client coordinates
(integers cast to `f64` by the source, hence `Int` here); drawable sizes are
`u32` values produced by the environment's scaling function. -/
inductive WindowEvent
  | FramebufferSize (w h : Nat)
  | Size (w h : Nat)
  | MouseButton (button : MouseButton) (action : Action) (mods : Modifiers)
  | CursorPos (x y : Int) (mods : Modifiers)
  | Scroll (dx dy : Int) (mods : Modifiers)
  | Key (key : Key) (action : Action) (mods : Modifiers)
  | Close
deriving DecidableEq, Repr

/-- The `stdweb` mouse-button enumeration matched by
`translate_mouse_button` (`webevent::MouseButton`). -/
inductive WebMouseButton
  | Left
  | Right
  | Wheel
  | Button4
  | Button5
deriving DecidableEq, Repr

/-- The fields of a raw browser mouse event that the listeners read:
the button, the four modifier-key flags and the client coordinates. -/
structure RawMouseInfo where
  button : WebMouseButton
  shiftKey : Bool
  ctrlKey : Bool
  altKey : Bool
  metaKey : Bool
  clientX : Int
  clientY : Int
deriving DecidableEq, Repr

/-- One raw browser event, as delivered to one of the five listeners
registered by `open` (resize, mousedown, mouseup, mousemove, wheel).
A resize event carries the canvas element's offset size at delivery time
(the listener re-reads `offset_width`/`offset_height` from the DOM);
a wheel event carries the `deltaX`/`deltaY` values read off the event
(already including the `unwrap_or(0)` fallback of the source). -/
inductive RawEvent
  | resize (offsetW offsetH : Nat)
  | mouseDown (e : RawMouseInfo)
  | mouseUp (e : RawMouseInfo)
  | mouseMove (e : RawMouseInfo)
  | wheel (deltaX deltaY : Int) (e : RawMouseInfo)
deriving DecidableEq, Repr

/-- A DOM canvas element: its CSS offset size (written by the host layout,
read by the backend) and its drawable `width`/`height` attributes (written
by `set_width`/`set_height`). -/
structure CanvasElement where
  offsetWidth : Nat
  offsetHeight : Nat
  width : Nat
  height : Nat
deriving DecidableEq, Repr

/-- `canvas.set_width(w)` on the DOM element. -/
def CanvasElement.set_width (c : CanvasElement) (w : Nat) : CanvasElement :=
  { c with width := w }

/-- `canvas.set_height(h)` on the DOM element. -/
def CanvasElement.set_height (c : CanvasElement) (h : Nat) : CanvasElement :=
  { c with height := h }

/-- `struct WebGLCanvasData`: the shared mutable state behind the
`Rc<RefCell<..>>`. `out_events` models the `Sender` as the list of events
sent so far. -/
structure WebGLCanvasData where
  canvas : CanvasElement
  key_states : Key → Action
  button_states : MouseButton → Action
  pending_events : List WindowEvent
  out_events : List WindowEvent

/-- `struct WebGLCanvas`: the backend handle. `hidpi_factor` is the
`window.devicePixelRatio` value captured at `open` (an `f64`, modelled as a
rational); `scale` is the captured function
`x ↦ (x as f64 * hidpi_factor) as u32` used by `open` and the resize
listener to compute drawable sizes. -/
structure WebGLCanvas where
  data : WebGLCanvasData
  hidpi_factor : ℚ
  scale : Nat → Nat

/-- The host environment visible to `open`: the device pixel ratio, its
associated size-scaling function, and `document.query_selector`. -/
structure DomEnv where
  devicePixelRatio : ℚ
  scale : Nat → Nat
  query_selector : String → Option CanvasElement

/-- `fn translate_modifiers`: reads the four modifier flags off the raw
event and inserts the matching bits into an initially empty bitset. -/
def translate_modifiers (e : RawMouseInfo) : Modifiers :=
  let res := Modifiers.empty
  let res := if e.shiftKey then { res with shift := true } else res
  let res := if e.ctrlKey then { res with control := true } else res
  let res := if e.altKey then { res with alt := true } else res
  let res := if e.metaKey then { res with sup := true } else res
  res

/-- `fn translate_mouse_button`: the exhaustive mapping from the `stdweb`
button codes to the unified enumeration. -/
def translate_mouse_button (b : WebMouseButton) : MouseButton :=
  match b with
  | WebMouseButton.Left => MouseButton.Button1
  | WebMouseButton.Right => MouseButton.Button2
  | WebMouseButton.Wheel => MouseButton.Button3
  | WebMouseButton.Button4 => MouseButton.Button4
  | WebMouseButton.Button5 => MouseButton.Button5

/-- Pointwise update of a button-state array
(`edata.button_states[button as usize] = action`). -/
def setButtonState (f : MouseButton → Action) (b : MouseButton) (a : Action) :
    MouseButton → Action :=
  fun b2 => if b2 = b then a else f b2

/-- One listener invocation: the body of the listener registered in `open`
for the matching raw event kind, acting on the shared `WebGLCanvasData`.
`scale` is the captured hidpi scaling closure. -/
def processRaw (scale : Nat → Nat) (d : WebGLCanvasData) : RawEvent → WebGLCanvasData
  | RawEvent.resize oW oH =>
    -- the DOM has re-laid-out the element; the listener reads the fresh
    -- offset size and writes the scaled drawable size back
    let canvas1 := { d.canvas with offsetWidth := oW, offsetHeight := oH }
    let w := scale canvas1.offsetWidth
    let h := scale canvas1.offsetHeight
    let canvas2 := (canvas1.set_width w).set_height h
    { d with
      canvas := canvas2
      pending_events :=
        d.pending_events ++ [WindowEvent.FramebufferSize w h, WindowEvent.Size w h] }
  | RawEvent.mouseDown e =>
    let button := translate_mouse_button e.button
    { d with
      pending_events :=
        d.pending_events ++
          [WindowEvent.MouseButton button Action.Press (translate_modifiers e)]
      button_states := setButtonState d.button_states button Action.Press }
  | RawEvent.mouseUp e =>
    let button := translate_mouse_button e.button
    { d with
      pending_events :=
        d.pending_events ++
          [WindowEvent.MouseButton button Action.Release (translate_modifiers e)]
      button_states := setButtonState d.button_states button Action.Release }
  | RawEvent.mouseMove e =>
    { d with
      pending_events :=
        d.pending_events ++
          [WindowEvent.CursorPos e.clientX e.clientY (translate_modifiers e)] }
  | RawEvent.wheel dx dy e =>
    { d with
      pending_events :=
        d.pending_events ++ [WindowEvent.Scroll dx dy (translate_modifiers e)] }

/-- `fn poll_events`: drains the pending queue, sending every event, in
order, into the outgoing channel. -/
def pollEvents (d : WebGLCanvasData) : WebGLCanvasData :=
  { d with
    pending_events := []
    out_events := d.out_events ++ d.pending_events }

/-- `fn get_key`. -/
def WebGLCanvas.get_key (c : WebGLCanvas) (k : Key) : Action :=
  c.data.key_states k

/-- `fn get_mouse_button`. -/
def WebGLCanvas.get_mouse_button (c : WebGLCanvas) (b : MouseButton) : Action :=
  c.data.button_states b

/-- `fn hidpi_factor`. -/
def WebGLCanvas.hidpiFactor (c : WebGLCanvas) : ℚ :=
  c.hidpi_factor

/-- `fn should_close`: always `false` on this backend. -/
def WebGLCanvas.should_close (_c : WebGLCanvas) : Bool :=
  false

/-- `fn size`: reads the element's offset size back from the DOM. -/
def WebGLCanvas.size (c : WebGLCanvas) : Nat × Nat :=
  (c.data.canvas.offsetWidth, c.data.canvas.offsetHeight)

/-- `fn open`: reads `window.devicePixelRatio`, locates the `#canvas` DOM
element (panicking — modelled as `none` — when the query fails), sets its
drawable size to the scaled offset size, and builds the initial shared state
with both state arrays filled with `Release` and an empty queue. The
`title`, `hide`, `width` and `height` parameters are never read. -/
def WebGLCanvas.openCanvas (env : DomEnv) (_title : String) (_hide : Bool)
    (_width _height : Nat) : Option WebGLCanvas :=
  let hidpi_factor := env.devicePixelRatio
  match env.query_selector "#canvas" with
  | none => none
  | some canvas =>
    let canvas :=
      (canvas.set_width (env.scale canvas.offsetWidth)).set_height
        (env.scale canvas.offsetHeight)
    some
      { data :=
          { canvas := canvas
            key_states := fun _ => Action.Release
            button_states := fun _ => Action.Release
            pending_events := []
            out_events := [] }
        hidpi_factor := hidpi_factor
        scale := env.scale }

/-- One externally observable operation on an opened canvas: delivery of a
raw browser event to its listener, or one of the `AbstractCanvas` methods
that take `&mut self` or `&self`. (`get_key`, `get_mouse_button`, `size`,
`hidpi_factor` and `should_close` are pure reads and need no operation.) -/
inductive CanvasOp
  | raw (r : RawEvent)
  | poll
  | swapBuffers
  | setTitle (title : String)
  | closeOp
  | hideOp
  | showOp
deriving DecidableEq, Repr

/-- Apply one operation to the canvas. `swap_buffers`, `set_title`, `close`,
`hide` and `show` have empty bodies in the source and leave the canvas
untouched. -/
def applyOp (c : WebGLCanvas) : CanvasOp → WebGLCanvas
  | CanvasOp.raw r => { c with data := processRaw c.scale c.data r }
  | CanvasOp.poll => { c with data := pollEvents c.data }
  | CanvasOp.swapBuffers => c
  | CanvasOp.setTitle _ => c
  | CanvasOp.closeOp => c
  | CanvasOp.hideOp => c
  | CanvasOp.showOp => c

/-- Apply a sequence of operations, oldest first. -/
def applyOps (c : WebGLCanvas) (ops : List CanvasOp) : WebGLCanvas :=
  ops.foldl applyOp c

/-- Apply a sequence of raw events to the shared data, oldest first. -/
def processAll (scale : Nat → Nat) (d : WebGLCanvasData) (rs : List RawEvent) :
    WebGLCanvasData :=
  rs.foldl (processRaw scale) d

/-- The translated events a single raw event contributes to the pending
queue (a pure function of the event and the captured scaling closure). -/
def translation (scale : Nat → Nat) : RawEvent → List WindowEvent
  | RawEvent.resize oW oH =>
    [WindowEvent.FramebufferSize (scale oW) (scale oH),
      WindowEvent.Size (scale oW) (scale oH)]
  | RawEvent.mouseDown e =>
    [WindowEvent.MouseButton (translate_mouse_button e.button) Action.Press
        (translate_modifiers e)]
  | RawEvent.mouseUp e =>
    [WindowEvent.MouseButton (translate_mouse_button e.button) Action.Release
        (translate_modifiers e)]
  | RawEvent.mouseMove e =>
    [WindowEvent.CursorPos e.clientX e.clientY (translate_modifiers e)]
  | RawEvent.wheel dx dy e =>
    [WindowEvent.Scroll dx dy (translate_modifiers e)]

/-- The pending-queue contribution of one canvas operation: a raw event
contributes its translation, every other operation contributes nothing. -/
def opTranslation (scale : Nat → Nat) : CanvasOp → List WindowEvent
  | CanvasOp.raw r => translation scale r
  | _ => []

/-- All events translated while a sequence of operations ran, in order. -/
def translatedEvents (scale : Nat → Nat) (ops : List CanvasOp) : List WindowEvent :=
  (ops.map (opTranslation scale)).flatten

/-- Whether a translated event names the given mouse button, and with which
action. -/
def namesButton (b : MouseButton) : WindowEvent → Option Action
  | WindowEvent.MouseButton b2 a _ => if b2 = b then some a else none
  | _ => none

/-- Whether a translated event names the given key, and with which action. -/
def namesKey (k : Key) : WindowEvent → Option Action
  | WindowEvent.Key k2 a _ => if k2 = k then some a else none
  | _ => none

/-- The action of the most recent event of the list selected by `f`
(`none` when no event of the list is selected). -/
def lastActionBy (f : WindowEvent → Option Action) (evs : List WindowEvent) :
    Option Action :=
  evs.foldl (fun acc e => match f e with | some a => some a | none => acc) none

/-- Whether a unified event is a `Key` event. -/
def isKeyEvent : WindowEvent → Bool
  | WindowEvent.Key _ _ _ => true
  | _ => false

/-- Modelled from the spec: the keyboard listener body that the
browser-canvas backend lacks (no `keydown`/`keyup` subscription appears in
`open`). Per the spec's State Tracker and Event Queue contracts, translating
a raw key event records its action in the key state array synchronously and
appends the translated `Key` event to the pending queue. -/
def processKeyRaw (d : WebGLCanvasData) (k : Key) (a : Action) (m : Modifiers) :
    WebGLCanvasData :=
  { d with
    pending_events := d.pending_events ++ [WindowEvent.Key k a m]
    key_states := fun k2 => if k2 = k then a else d.key_states k2 }

/-- Deliver a spec-modelled raw key event to the canvas. -/
def applySpecKey (c : WebGLCanvas) (k : Key) (a : Action) (m : Modifiers) :
    WebGLCanvas :=
  { c with data := processKeyRaw c.data k a m }

/-- Optionally run `poll_events`, depending on whether the consumer chose to
drain at this point. -/
def canvasMaybePoll (b : Bool) (c : WebGLCanvas) : WebGLCanvas :=
  if b then applyOp c CanvasOp.poll else c

/-- A concrete DOM canvas element for the scenarios: CSS size 800×600,
drawable size not yet set. -/
def elem0 : CanvasElement :=
  { offsetWidth := 800, offsetHeight := 600, width := 0, height := 0 }

/-- A concrete host environment: device pixel ratio 1 (so the scaling
function is the identity) and a document whose only selectable element is
`#canvas`. -/
def env0 : DomEnv :=
  { devicePixelRatio := 1
    scale := fun x => x
    query_selector := fun s => if s = "#canvas" then some elem0 else none }

/-- The canvas obtained by `open` against `env0`. -/
def canvas0 : WebGLCanvas :=
  (WebGLCanvas.openCanvas env0 "kiss3d" false 800 600).get (by decide)

/-- A raw left-button mouse event with no modifier key held, at the given
client coordinates. -/
def rawLeft (x y : Int) : RawMouseInfo :=
  { button := WebMouseButton.Left
    shiftKey := false
    ctrlKey := false
    altKey := false
    metaKey := false
    clientX := x
    clientY := y }

/-- A concrete operation sequence exercising every listener and method:
a click, a drag, a drain, a resize, a wheel turn, the no-op methods, a
release and a final drain. -/
def sampleOps : List CanvasOp :=
  [CanvasOp.raw (RawEvent.mouseDown (rawLeft 5 6)),
    CanvasOp.raw (RawEvent.mouseMove (rawLeft 7 8)),
    CanvasOp.poll,
    CanvasOp.raw (RawEvent.resize 640 480),
    CanvasOp.raw (RawEvent.wheel 0 3 (rawLeft 7 8)),
    CanvasOp.swapBuffers, CanvasOp.setTitle "other",
    CanvasOp.showOp, CanvasOp.hideOp, CanvasOp.closeOp,
    CanvasOp.raw (RawEvent.mouseUp (rawLeft 7 8)),
    CanvasOp.poll]

/-- The host's frame scheduler as seen through `request_animation_frame`:
`pending` counts the wrapper closures currently queued, `fired` counts the
frames delivered so far. -/
structure FrameSched where
  pending : Nat
  fired : Nat
deriving DecidableEq, Repr

/-- `fn render_loop`: a single call performs exactly one
`request_animation_frame`, queueing one wrapper closure. -/
def renderLoop (s : FrameSched) : FrameSched :=
  { s with pending := s.pending + 1 }

/-- The host delivers one frame: a queued wrapper is dequeued and run.
The wrapper body first invokes the user callback — which may itself call
`render_loop` any number of times, `rearm s.fired` at this frame — and then
unconditionally calls `Self::render_loop(callback)`, queueing one more
wrapper. When nothing is queued the host has nothing to run. -/
def fireFrame (rearm : Nat → Nat) (s : FrameSched) : FrameSched :=
  if s.pending = 0 then s
  else { pending := s.pending - 1 + rearm s.fired + 1, fired := s.fired + 1 }

theorem processRaw_pending (scale : Nat → Nat) (d : WebGLCanvasData) (r : RawEvent) :
    (processRaw scale d r).pending_events = d.pending_events ++ translation scale r := by
  cases r <;> rfl

theorem processRaw_out (scale : Nat → Nat) (d : WebGLCanvasData) (r : RawEvent) :
    (processRaw scale d r).out_events = d.out_events := by
  cases r <;> rfl

theorem processRaw_key_states (scale : Nat → Nat) (d : WebGLCanvasData) (r : RawEvent) :
    (processRaw scale d r).key_states = d.key_states := by
  cases r <;> rfl

theorem processAll_pending (scale : Nat → Nat) (rs : List RawEvent) :
    ∀ d : WebGLCanvasData,
      (processAll scale d rs).pending_events
        = d.pending_events ++ (rs.map (translation scale)).flatten := by
  induction rs with
  | nil => intro d; simp [processAll]
  | cons r rs ih =>
    intro d
    have h1 : processAll scale d (r :: rs) = processAll scale (processRaw scale d r) rs := rfl
    rw [h1, ih, processRaw_pending]
    simp

theorem processAll_out (scale : Nat → Nat) (rs : List RawEvent) :
    ∀ d : WebGLCanvasData, (processAll scale d rs).out_events = d.out_events := by
  induction rs with
  | nil => intro d; rfl
  | cons r rs ih =>
    intro d
    have h1 : processAll scale d (r :: rs) = processAll scale (processRaw scale d r) rs := rfl
    rw [h1, ih, processRaw_out]

/-- C1: a call to `poll_events` forwards to the event sink exactly the
pending translated events, in arrival order, and empties the queue; and for
any sequence of raw events translated between two drains, the second drain
forwards exactly their translations, each exactly once, in order. -/
theorem poll_forwards_exactly_once (scale : Nat → Nat) (d : WebGLCanvasData)
    (rs : List RawEvent) :
    (pollEvents d).out_events = d.out_events ++ d.pending_events ∧
    (pollEvents d).pending_events = [] ∧
    (pollEvents (processAll scale (pollEvents d) rs)).out_events
      = (pollEvents d).out_events ++ (rs.map (translation scale)).flatten ∧
    (pollEvents (processAll scale (pollEvents d) rs)).pending_events = [] := by
  refine ⟨rfl, rfl, ?_, rfl⟩
  show (processAll scale (pollEvents d) rs).out_events
      ++ (processAll scale (pollEvents d) rs).pending_events = _
  rw [processAll_out, processAll_pending]
  show (pollEvents d).out_events ++ ([] ++ _) = _
  rw [List.nil_append]

/-- C4: after `open(hidden := false, 800, 600)`, feeding the raw sequence
[MouseDown(left), MouseMove(120, 80), MouseUp(left)] and draining yields
exactly [MouseButton(Button1, Press, ∅), CursorPos(120, 80, ∅),
MouseButton(Button1, Release, ∅)] on the sink, and
`get_mouse_button(Button1)` returns Release once all three are processed. -/
theorem scenario_mouse_press_move_release :
    (WebGLCanvas.openCanvas env0 "kiss3d" false 800 600).map (fun c =>
      let c2 := applyOps c
        [CanvasOp.raw (RawEvent.mouseDown (rawLeft 0 0)),
          CanvasOp.raw (RawEvent.mouseMove (rawLeft 120 80)),
          CanvasOp.raw (RawEvent.mouseUp (rawLeft 120 80)),
          CanvasOp.poll]
      (c2.data.out_events, c2.get_mouse_button MouseButton.Button1))
      = some
          ([WindowEvent.MouseButton MouseButton.Button1 Action.Press Modifiers.empty,
            WindowEvent.CursorPos 120 80 Modifiers.empty,
            WindowEvent.MouseButton MouseButton.Button1 Action.Release Modifiers.empty],
            Action.Release) := by
  rfl

/-- C5: two raw resize events delivered while the queue is undrained both
survive to the next drain: the sink receives the first resize's
`FramebufferSize`/`Size` pair before the second's, with no coalescing. -/
theorem resize_pairs_not_coalesced (scale : Nat → Nat) (d : WebGLCanvasData)
    (oW1 oH1 oW2 oH2 : Nat) :
    (pollEvents (processRaw scale (processRaw scale d (RawEvent.resize oW1 oH1))
        (RawEvent.resize oW2 oH2))).out_events
      = d.out_events ++ d.pending_events ++
          [WindowEvent.FramebufferSize (scale oW1) (scale oH1),
            WindowEvent.Size (scale oW1) (scale oH1),
            WindowEvent.FramebufferSize (scale oW2) (scale oH2),
            WindowEvent.Size (scale oW2) (scale oH2)] := by
  show (processRaw scale (processRaw scale d (RawEvent.resize oW1 oH1))
        (RawEvent.resize oW2 oH2)).out_events
      ++ (processRaw scale (processRaw scale d (RawEvent.resize oW1 oH1))
        (RawEvent.resize oW2 oH2)).pending_events = _
  rw [processRaw_out, processRaw_out, processRaw_pending, processRaw_pending]
  simp [translation]

/-- C7: `set_title`, `close`, `hide` and `show` are total no-ops on the
browser-canvas backend: each returns (hence never signals failure) and
leaves the canvas — pending queue, state arrays, hidpi factor, element
size — exactly as it was. -/
theorem unsupported_ops_are_noops (c : WebGLCanvas) (t : String) :
    applyOp c (CanvasOp.setTitle t) = c ∧ applyOp c CanvasOp.closeOp = c ∧
    applyOp c CanvasOp.hideOp = c ∧ applyOp c CanvasOp.showOp = c :=
  ⟨rfl, rfl, rfl, rfl⟩

theorem openCanvas_inv (env : DomEnv) (t : String) (hb : Bool) (w hg : Nat)
    (c : WebGLCanvas) (hopen : WebGLCanvas.openCanvas env t hb w hg = some c) :
    c.data.key_states = (fun _ => Action.Release) ∧
    c.data.button_states = (fun _ => Action.Release) ∧
    c.hidpi_factor = env.devicePixelRatio ∧
    c.scale = env.scale ∧
    c.data.pending_events = [] ∧
    c.data.out_events = [] := by
  cases hq : env.query_selector "#canvas" with
  | none => simp [WebGLCanvas.openCanvas, hq] at hopen
  | some elem =>
    simp [WebGLCanvas.openCanvas, hq] at hopen
    subst hopen
    exact ⟨rfl, rfl, rfl, rfl, rfl, rfl⟩

theorem applyOp_hidpi_factor (c : WebGLCanvas) (op : CanvasOp) :
    (applyOp c op).hidpi_factor = c.hidpi_factor := by
  cases op <;> rfl

theorem applyOps_hidpi_factor (ops : List CanvasOp) :
    ∀ c : WebGLCanvas, (applyOps c ops).hidpi_factor = c.hidpi_factor := by
  induction ops with
  | nil => intro c; rfl
  | cons op ops ih =>
    intro c
    have h1 : applyOps c (op :: ops) = applyOps (applyOp c op) ops := rfl
    rw [h1, ih, applyOp_hidpi_factor]

/-- C6: `hidpi_factor` returns the device-pixel-ratio captured once at
`open`, and no subsequent sequence of operations (event translation,
`poll_events`, `swap_buffers`, `set_title`, `show`, `hide`, `close`) ever
changes the value it returns. -/
theorem hidpi_factor_fixed_at_open (env : DomEnv) (t : String) (hb : Bool)
    (w hg : Nat) (c : WebGLCanvas) (ops : List CanvasOp)
    (hopen : WebGLCanvas.openCanvas env t hb w hg = some c) :
    c.hidpiFactor = env.devicePixelRatio ∧
    (applyOps c ops).hidpiFactor = c.hidpiFactor := by
  obtain ⟨_, _, hdpr, _, _, _⟩ := openCanvas_inv env t hb w hg c hopen
  exact ⟨hdpr, applyOps_hidpi_factor ops c⟩

theorem hidpi_factor_fixed_at_open_witness :
    canvas0.hidpiFactor = env0.devicePixelRatio ∧
    (applyOps canvas0
        [CanvasOp.raw (RawEvent.mouseDown (rawLeft 3 4)),
          CanvasOp.raw (RawEvent.resize 640 480), CanvasOp.poll,
          CanvasOp.swapBuffers, CanvasOp.setTitle "other", CanvasOp.showOp,
          CanvasOp.hideOp, CanvasOp.closeOp]).hidpiFactor = canvas0.hidpiFactor :=
  hidpi_factor_fixed_at_open env0 "kiss3d" false 800 600 canvas0
    [CanvasOp.raw (RawEvent.mouseDown (rawLeft 3 4)),
      CanvasOp.raw (RawEvent.resize 640 480), CanvasOp.poll,
      CanvasOp.swapBuffers, CanvasOp.setTitle "other", CanvasOp.showOp,
      CanvasOp.hideOp, CanvasOp.closeOp] rfl

/-- C10: `open` never reads its `title`, `hidden`, `width` and `height`
arguments; the resulting canvas wraps the DOM element located by the fixed
selector `#canvas`, with its drawable size set to the element's offset size
scaled by the device pixel ratio, all state arrays at Release and both
queues empty (no title or visibility is touched). -/
theorem open_ignores_params_and_uses_selector (env : DomEnv) (t1 t2 : String)
    (h1 h2 : Bool) (w1 w2 hg1 hg2 : Nat) (elem : CanvasElement)
    (hsel : env.query_selector "#canvas" = some elem) :
    WebGLCanvas.openCanvas env t1 h1 w1 hg1 = WebGLCanvas.openCanvas env t2 h2 w2 hg2 ∧
    WebGLCanvas.openCanvas env t1 h1 w1 hg1
      = some
          { data :=
              { canvas :=
                  { elem with
                    width := env.scale elem.offsetWidth
                    height := env.scale elem.offsetHeight }
                key_states := fun _ => Action.Release
                button_states := fun _ => Action.Release
                pending_events := []
                out_events := [] }
            hidpi_factor := env.devicePixelRatio
            scale := env.scale } := by
  refine ⟨rfl, ?_⟩
  simp [WebGLCanvas.openCanvas, hsel, CanvasElement.set_width, CanvasElement.set_height]

theorem open_ignores_params_and_uses_selector_witness :
    WebGLCanvas.openCanvas env0 "a" true 1 2 = WebGLCanvas.openCanvas env0 "b" false 800 600 ∧
    WebGLCanvas.openCanvas env0 "a" true 1 2
      = some
          { data :=
              { canvas :=
                  { elem0 with
                    width := env0.scale elem0.offsetWidth
                    height := env0.scale elem0.offsetHeight }
                key_states := fun _ => Action.Release
                button_states := fun _ => Action.Release
                pending_events := []
                out_events := [] }
            hidpi_factor := env0.devicePixelRatio
            scale := env0.scale } :=
  open_ignores_params_and_uses_selector env0 "a" "b" true false 1 800 2 600 elem0 rfl

/-- C2 (spec-modelled: the browser-canvas backend under `src/` registers no
keyboard listener, so the key-translation path is modelled from the spec's
State Tracker contract as `processKeyRaw`): after translating
`Key(K, Press, _)`, `get_key(K)` returns Press immediately, before any
drain; after a later `Key(K, Release, _)`, `get_key(K)` returns Release,
whether or not the queue was drained in between or afterwards. -/
theorem get_key_tracks_translation_immediately (c : WebGLCanvas) (k : Key)
    (m m2 : Modifiers) (b1 b2 : Bool) :
    (applySpecKey c k Action.Press m).get_key k = Action.Press ∧
    (canvasMaybePoll b2 (applySpecKey
        (canvasMaybePoll b1 (applySpecKey c k Action.Press m)) k
        Action.Release m2)).get_key k = Action.Release := by
  constructor
  · simp [applySpecKey, processKeyRaw, WebGLCanvas.get_key]
  · cases b1 <;> cases b2 <;>
      simp [canvasMaybePoll, applySpecKey, processKeyRaw, WebGLCanvas.get_key,
        applyOp, pollEvents]

theorem foldl_lastActionBy (f : WindowEvent → Option Action) (l : List WindowEvent) :
    ∀ acc : Option Action,
      l.foldl (fun acc2 e => match f e with | some a => some a | none => acc2) acc
        = (lastActionBy f l).elim acc some := by
  induction l with
  | nil => intro acc; simp [lastActionBy]
  | cons e l ih =>
    intro acc
    have he : lastActionBy f (e :: l)
        = (lastActionBy f l).elim (match f e with | some a => some a | none => none) some := by
      rw [lastActionBy, List.foldl_cons, ih]
    rw [List.foldl_cons, ih, he]
    cases hL : lastActionBy f l <;> cases hfe : f e <;> simp [hfe]

theorem lastActionBy_append (f : WindowEvent → Option Action)
    (xs ys : List WindowEvent) :
    lastActionBy f (xs ++ ys) = (lastActionBy f ys).elim (lastActionBy f xs) some := by
  show (xs ++ ys).foldl _ none = _
  rw [List.foldl_append]
  exact foldl_lastActionBy f ys _

theorem lastActionBy_eq_none (f : WindowEvent → Option Action)
    (l : List WindowEvent) (h : ∀ e ∈ l, f e = none) : lastActionBy f l = none := by
  induction l with
  | nil => rfl
  | cons e l ih =>
    have he : f e = none := h e (List.mem_cons_self e l)
    have hl : ∀ e2 ∈ l, f e2 = none := fun e2 h2 => h e2 (List.mem_cons_of_mem e h2)
    rw [lastActionBy, List.foldl_cons]
    show l.foldl _ (match f e with | some a => some a | none => none) = none
    rw [he]
    exact ih hl

theorem applyOp_scale (c : WebGLCanvas) (op : CanvasOp) :
    (applyOp c op).scale = c.scale := by
  cases op <;> rfl

theorem applyOp_button_states (c : WebGLCanvas) (op : CanvasOp) (b : MouseButton) :
    (applyOp c op).data.button_states b
      = (lastActionBy (namesButton b) (opTranslation c.scale op)).getD
          (c.data.button_states b) := by
  cases op with
  | raw r =>
    cases r with
    | resize oW oH => rfl
    | mouseDown e =>
      by_cases hb2 : translate_mouse_button e.button = b
      · simp [applyOp, processRaw, opTranslation, translation, lastActionBy,
          namesButton, setButtonState, hb2]
      · simp [applyOp, processRaw, opTranslation, translation, lastActionBy,
          namesButton, setButtonState, hb2, Ne.symm hb2]
    | mouseUp e =>
      by_cases hb2 : translate_mouse_button e.button = b
      · simp [applyOp, processRaw, opTranslation, translation, lastActionBy,
          namesButton, setButtonState, hb2]
      · simp [applyOp, processRaw, opTranslation, translation, lastActionBy,
          namesButton, setButtonState, hb2, Ne.symm hb2]
    | mouseMove e => rfl
    | wheel dx dy e => rfl
  | poll => rfl
  | swapBuffers => rfl
  | setTitle t => rfl
  | closeOp => rfl
  | hideOp => rfl
  | showOp => rfl

theorem translatedEvents_cons (scale : Nat → Nat) (op : CanvasOp)
    (ops : List CanvasOp) :
    translatedEvents scale (op :: ops)
      = opTranslation scale op ++ translatedEvents scale ops := by
  simp [translatedEvents]

theorem applyOps_button_states (b : MouseButton) (ops : List CanvasOp) :
    ∀ c : WebGLCanvas,
      (applyOps c ops).data.button_states b
        = (lastActionBy (namesButton b) (translatedEvents c.scale ops)).getD
            (c.data.button_states b) := by
  induction ops with
  | nil => intro c; rfl
  | cons op ops ih =>
    intro c
    have h1 : applyOps c (op :: ops) = applyOps (applyOp c op) ops := rfl
    rw [h1, ih, applyOp_scale, applyOp_button_states, translatedEvents_cons,
      lastActionBy_append]
    cases lastActionBy (namesButton b) (translatedEvents c.scale ops) <;> simp

theorem applyOp_key_states (c : WebGLCanvas) (op : CanvasOp) :
    (applyOp c op).data.key_states = c.data.key_states := by
  cases op with
  | raw r => exact processRaw_key_states c.scale c.data r
  | poll => rfl
  | swapBuffers => rfl
  | setTitle t => rfl
  | closeOp => rfl
  | hideOp => rfl
  | showOp => rfl

theorem applyOps_key_states (ops : List CanvasOp) :
    ∀ c : WebGLCanvas, (applyOps c ops).data.key_states = c.data.key_states := by
  induction ops with
  | nil => intro c; rfl
  | cons op ops ih =>
    intro c
    have h1 : applyOps c (op :: ops) = applyOps (applyOp c op) ops := rfl
    rw [h1, ih, applyOp_key_states]

theorem translation_no_key (scale : Nat → Nat) (r : RawEvent) :
    ∀ e ∈ translation scale r, isKeyEvent e = false := by
  cases r <;> simp [translation, isKeyEvent]

theorem namesKey_eq_none (k : Key) (e : WindowEvent)
    (he : isKeyEvent e = false) : namesKey k e = none := by
  cases e <;> simp [namesKey]
  simp [isKeyEvent] at he

theorem mem_translatedEvents_not_key (scale : Nat → Nat) (ops : List CanvasOp) :
    ∀ e ∈ translatedEvents scale ops, isKeyEvent e = false := by
  intro e he
  simp only [translatedEvents, List.mem_flatten, List.mem_map] at he
  obtain ⟨l, ⟨op, hop, rfl⟩, hel⟩ := he
  cases op with
  | raw r => exact translation_no_key scale r e hel
  | poll => simp [opTranslation] at hel
  | swapBuffers => simp [opTranslation] at hel
  | setTitle t => simp [opTranslation] at hel
  | closeOp => simp [opTranslation] at hel
  | hideOp => simp [opTranslation] at hel
  | showOp => simp [opTranslation] at hel

theorem lastActionBy_namesKey_translated (k : Key) (scale : Nat → Nat)
    (ops : List CanvasOp) :
    lastActionBy (namesKey k) (translatedEvents scale ops) = none := by
  apply lastActionBy_eq_none
  intro e he
  exact namesKey_eq_none k e (mem_translatedEvents_not_key scale ops e he)

/-- C3: invariant over every reachable state — for every key and every mouse
button, the state-array entry equals the action of the most recently
translated event naming that key or button, and equals Release when no
translated event has ever named it. -/
theorem state_tracker_matches_last_translated (env : DomEnv) (t : String)
    (hb : Bool) (w hg : Nat) (c : WebGLCanvas) (ops : List CanvasOp) (k : Key)
    (b : MouseButton)
    (hopen : WebGLCanvas.openCanvas env t hb w hg = some c) :
    (applyOps c ops).data.key_states k
      = (lastActionBy (namesKey k) (translatedEvents c.scale ops)).getD
          Action.Release ∧
    (applyOps c ops).data.button_states b
      = (lastActionBy (namesButton b) (translatedEvents c.scale ops)).getD
          Action.Release := by
  obtain ⟨hk, hbtn, _, _, _, _⟩ := openCanvas_inv env t hb w hg c hopen
  constructor
  · rw [applyOps_key_states, hk, lastActionBy_namesKey_translated]
    rfl
  · rw [applyOps_button_states, hbtn]

theorem state_tracker_matches_last_translated_witness :
    (applyOps canvas0 sampleOps).data.key_states Key.A
      = (lastActionBy (namesKey Key.A) (translatedEvents canvas0.scale sampleOps)).getD
          Action.Release ∧
    (applyOps canvas0 sampleOps).data.button_states MouseButton.Button1
      = (lastActionBy (namesButton MouseButton.Button1)
          (translatedEvents canvas0.scale sampleOps)).getD Action.Release :=
  state_tracker_matches_last_translated env0 "kiss3d" false 800 600 canvas0
    sampleOps Key.A MouseButton.Button1 rfl

theorem translation_all_no_key (scale : Nat → Nat) (r : RawEvent) :
    ((translation scale r).all fun e => !(isKeyEvent e)) = true := by
  cases r <;> rfl

theorem applyOps_no_key_events (ops : List CanvasOp) :
    ∀ c : WebGLCanvas,
      (c.data.out_events.all fun e => !(isKeyEvent e)) = true →
      (c.data.pending_events.all fun e => !(isKeyEvent e)) = true →
      ((applyOps c ops).data.out_events.all fun e => !(isKeyEvent e)) = true ∧
      ((applyOps c ops).data.pending_events.all fun e => !(isKeyEvent e)) = true := by
  induction ops with
  | nil => intro c h1 h2; exact ⟨h1, h2⟩
  | cons op ops ih =>
    intro c h1 h2
    have h3 : applyOps c (op :: ops) = applyOps (applyOp c op) ops := rfl
    rw [h3]
    apply ih
    · cases op with
      | raw r =>
        show ((processRaw c.scale c.data r).out_events.all _) = true
        rw [processRaw_out]
        exact h1
      | poll =>
        show ((c.data.out_events ++ c.data.pending_events).all _) = true
        simp only [List.all_append, h1, h2]
        rfl
      | swapBuffers => exact h1
      | setTitle t => exact h1
      | closeOp => exact h1
      | hideOp => exact h1
      | showOp => exact h1
    · cases op with
      | raw r =>
        show ((processRaw c.scale c.data r).pending_events.all _) = true
        rw [processRaw_pending]
        simp only [List.all_append, h2, translation_all_no_key]
        rfl
      | poll => rfl
      | swapBuffers => exact h2
      | setTitle t => exact h2
      | closeOp => exact h2
      | hideOp => exact h2
      | showOp => exact h2

/-- C9: the browser-canvas backend registers no keyboard subscription — in
every reachable state `get_key` returns Release for every key, neither the
sink nor the pending queue ever holds a `Key` event, and no operation writes
the key state array. -/
theorem no_keyboard_subscriptions (env : DomEnv) (t : String) (hb : Bool)
    (w hg : Nat) (c : WebGLCanvas) (ops : List CanvasOp) (k : Key)
    (op2 : CanvasOp)
    (hopen : WebGLCanvas.openCanvas env t hb w hg = some c) :
    WebGLCanvas.get_key (applyOps c ops) k = Action.Release ∧
    ((applyOps c ops).data.out_events.all fun e => !(isKeyEvent e)) = true ∧
    ((applyOps c ops).data.pending_events.all fun e => !(isKeyEvent e)) = true ∧
    (applyOp (applyOps c ops) op2).data.key_states
      = (applyOps c ops).data.key_states := by
  obtain ⟨hk, _, _, _, hpend, hout⟩ := openCanvas_inv env t hb w hg c hopen
  refine ⟨?_, ?_, ?_, applyOp_key_states _ op2⟩
  · show (applyOps c ops).data.key_states k = _
    rw [applyOps_key_states, hk]
  · exact (applyOps_no_key_events ops c (by rw [hout]; rfl) (by rw [hpend]; rfl)).1
  · exact (applyOps_no_key_events ops c (by rw [hout]; rfl) (by rw [hpend]; rfl)).2

theorem no_keyboard_subscriptions_witness :
    WebGLCanvas.get_key (applyOps canvas0 sampleOps) Key.Unknown = Action.Release ∧
    ((applyOps canvas0 sampleOps).data.out_events.all fun e => !(isKeyEvent e)) = true ∧
    ((applyOps canvas0 sampleOps).data.pending_events.all fun e => !(isKeyEvent e)) = true ∧
    (applyOp (applyOps canvas0 sampleOps) CanvasOp.poll).data.key_states
      = (applyOps canvas0 sampleOps).data.key_states :=
  no_keyboard_subscriptions env0 "kiss3d" false 800 600 canvas0 sampleOps
    Key.Unknown CanvasOp.poll rfl

/-- C8 counterexample: the claim says the invocation chain continues only if
the callback re-arms and terminates exactly when it declines. In the source
the wrapper passed to `request_animation_frame` calls `Self::render_loop`
again unconditionally after the callback returns. Concretely: arm once with
a callback that never calls `render_loop` (it declines at every frame);
after the host delivers the first frame a wrapper is still queued, and a
second frame is delivered — the chain did not terminate. -/
theorem render_loop_chain_survives_decline :
    (fireFrame (fun _ => 0) (renderLoop { pending := 0, fired := 0 })).pending = 1 ∧
    (fireFrame (fun _ => 0) (fireFrame (fun _ => 0)
        (renderLoop { pending := 0, fired := 0 }))).fired = 2 := by
  decide

/-- C8 (amended): each call to `render_loop` requests exactly one future
frame callback from the host scheduler; the scheduled wrapper, after
invoking the callback, unconditionally calls `render_loop` again, so when a
wrapper is queued, delivering a frame always leaves a wrapper queued — the
chain re-arms itself regardless of whether the callback calls `render_loop`,
and never terminates while the host keeps delivering frames. -/
theorem render_loop_requests_one_and_rearms (rearm : Nat → Nat) (s : FrameSched)
    (h : 0 < s.pending) :
    (renderLoop s).pending = s.pending + 1 ∧
    0 < (fireFrame rearm s).pending := by
  have hne : s.pending ≠ 0 := Nat.pos_iff_ne_zero.mp h
  refine ⟨rfl, ?_⟩
  simp [fireFrame, hne]

theorem render_loop_requests_one_and_rearms_witness :
    0 < ({ pending := 1, fired := 0 } : FrameSched).pending ∧
    ((renderLoop { pending := 1, fired := 0 }).pending
        = ({ pending := 1, fired := 0 } : FrameSched).pending + 1 ∧
      0 < (fireFrame (fun _ => 0) { pending := 1, fired := 0 }).pending) :=
  ⟨by decide,
    render_loop_requests_one_and_rearms (fun _ => 0) { pending := 1, fired := 0 }
      (by decide)⟩

end Kiss3d
